import Mathlib

/-!
Shallow embedding of the WDP_BE disaster-relief backend core:
the RescueRequest lifecycle service and the RescueTeam service,
translated from `src/services/rescue_request` (unnamed part_000,
second revision) and `src/services/rescue_team.js`, over the
Sequelize models `rescue_requests.model.js` / `rescue_teams.model.js`.

Modelling conventions:
- JavaScript `undefined`/`null` on a field is `Option.none`; JS truthiness
  of a string is `s != ""` and of a number is `n != 0` (`truthyS`/`truthyN`).
- The database is an association list per table; Sequelize `paranoid`
  soft-delete is a `deletedAt` timestamp, and lookups skip deleted rows.
- The services throw plain `Error(msg)`; the design document's error
  taxonomy assigns each throw site a kind (ValidationError, NotFoundError,
  ForbiddenError, ConflictError, StateError), so errors here carry both
  the kind and the message text of the source.
- Timestamps (`new Date()`) are an abstract `now : Nat` passed in.
- A transaction in the source is a pure function here that either returns
  the fully updated database or an error and no database, so atomicity of
  the paired writes is expressed by both updates being present in the one
  returned state.
-/

namespace WDP

/-- Error kinds of the design document's taxonomy. -/
inductive ErrKind where
  | validation
  | notFound
  | forbidden
  | conflict
  | state
deriving DecidableEq, Repr

/-- An error thrown by a service: taxonomy kind plus the message text of the
source's `throw new Error(...)`. -/
structure Err where
  kind : ErrKind
  msg : String
deriving DecidableEq, Repr

/-- JS truthiness of an optional string: null/undefined and "" are falsy. -/
def truthyS : Option String → Bool
  | none => false
  | some s => s != ""

/-- JS truthiness of an optional number: null/undefined and 0 are falsy. -/
def truthyN : Option Int → Bool
  | none => false
  | some n => n != 0

/-- A row of the `rescue_requests` table (rescue_requests.model.js plus the
assignment columns used by the service revision that implements
assignTeamToRequest/completeMission). -/
structure RescueRequest where
  category : String
  province_city : String
  phone_number : String
  description : String
  num_people : Int
  priority : Option String
  status : String
  location_type : String
  latitude : Option Int
  longitude : Option Int
  address : Option String
  media_urls : List String
  user_id : Option Nat
  verified_by : Option Nat
  verified_at : Option Nat
  notes : Option String
  assigned_team_id : Option Nat
  assigned_at : Option Nat
  assigned_by : Option Nat
  deletedAt : Option Nat
deriving DecidableEq, Repr

/-- A row of the `rescue_teams` table (rescue_teams model, unnamed part_001). -/
structure RescueTeam where
  name : String
  leader_name : String
  phone_number : String
  specialization : String
  capacity : Int
  current_members : Int
  status : String
  province_city : String
  equipment : List String
  notes : Option String
  deletedAt : Option Nat
deriving DecidableEq, Repr

/-- A row of the users table; only the role is consulted by these services. -/
structure UserRec where
  role : String
deriving DecidableEq, Repr

/-- The persistence gateway state: the three tables as id-keyed lists. -/
structure DB where
  requests : List (Nat × RescueRequest)
  teams : List (Nat × RescueTeam)
  users : List (Nat × UserRec)
deriving DecidableEq, Repr

/-- Sequelize `findByPk` on a paranoid model: first row with the id, skipping
soft-deleted rows (a deleted row makes the lookup miss). -/
def findRow {α : Type} (rows : List (Nat × α)) (getDeleted : α → Option Nat)
    (id : Nat) : Option α :=
  match rows.find? (fun p => p.1 == id) with
  | some (_, r) => if (getDeleted r).isSome then none else some r
  | none => none

/-- `RescueRequestModel.findByPk(id)` honouring soft delete. -/
def findReq (db : DB) (id : Nat) : Option RescueRequest :=
  findRow db.requests (fun r => r.deletedAt) id

/-- `RescueTeamModel.findByPk(id)` honouring soft delete. -/
def findTeam (db : DB) (id : Nat) : Option RescueTeam :=
  findRow db.teams (fun t => t.deletedAt) id

/-- `UserModel.findByPk(id)`. -/
def findUser (db : DB) (id : Nat) : Option UserRec :=
  match db.users.find? (fun p => p.1 == id) with
  | some (_, u) => some u
  | none => none

/-- Write back a request row under its id. -/
def setReq (db : DB) (id : Nat) (r : RescueRequest) : DB :=
  { db with requests := db.requests.map (fun p => if p.1 == id then (id, r) else p) }

/-- Write back a team row under its id. -/
def setTeam (db : DB) (id : Nat) (t : RescueTeam) : DB :=
  { db with teams := db.teams.map (fun p => if p.1 == id then (id, t) else p) }

/-- Input body for `createTeam` (fields destructured by the source). -/
structure TeamData where
  name : Option String
  leader_name : Option String
  phone_number : Option String
  specialization : Option String
  capacity : Option Int
  current_members : Option Int
  province_city : Option String
  equipment : Option (List String)
  notes : Option String
deriving DecidableEq, Repr

/-- `RescueTeamModel.findOne(\x7b where: \x7b name \x7d \x7d)` on the paranoid
model: first non-deleted team row with that name. -/
def findTeamByName (db : DB) (name : String) : Option RescueTeam :=
  match db.teams.find? (fun p => p.2.name == name && p.2.deletedAt.isNone) with
  | some (_, t) => some t
  | none => none

/-- RescueTeamService.createTeam: required-field validation, duplicate-name
check among non-deleted teams, then insert with defaults. `newId` is the
primary key the gateway assigns to the inserted row. -/
def createTeam (db : DB) (d : TeamData) (newId : Nat) :
    Except Err (DB × RescueTeam) :=
  if !truthyS d.name || !truthyS d.leader_name || !truthyS d.phone_number
      || !truthyS d.province_city then
    .error ⟨.validation, "Missing required fields"⟩
  else if (findTeamByName db (d.name.getD "")).isSome then
    .error ⟨.conflict, "Team with this name already exists"⟩
  else
    let team : RescueTeam :=
      { name := d.name.getD ""
        leader_name := d.leader_name.getD ""
        phone_number := d.phone_number.getD ""
        specialization := if truthyS d.specialization then d.specialization.getD "" else "general"
        capacity := if truthyN d.capacity then d.capacity.getD 5 else 5
        current_members := if truthyN d.current_members then d.current_members.getD 0 else 0
        status := "available"
        province_city := d.province_city.getD ""
        equipment := d.equipment.getD []
        notes := d.notes
        deletedAt := none }
    .ok ({ db with teams := db.teams ++ [(newId, team)] }, team)

/-- RescueTeamService.getTeamById: NotFoundError when absent or soft-deleted. -/
def getTeamById (db : DB) (id : Nat) : Except Err RescueTeam :=
  match findTeam db id with
  | none => .error ⟨.notFound, "Team not found"⟩
  | some t => .ok t

/-- RescueTeamService.deleteTeam: ConflictError while on mission, otherwise
soft delete (destroy on a paranoid model sets the deletion timestamp). -/
def deleteTeam (db : DB) (id : Nat) (now : Nat) : Except Err DB :=
  match getTeamById db id with
  | .error e => .error e
  | .ok team =>
    if team.status = "on_mission" then
      .error ⟨.conflict, "Cannot delete team that is currently on mission"⟩
    else
      .ok (setTeam db id { team with deletedAt := some now })

/-- RescueTeamService.setTeamOnMission: ConflictError unless the team is
exactly available. -/
def setTeamOnMission (db : DB) (id : Nat) : Except Err (DB × RescueTeam) :=
  match getTeamById db id with
  | .error e => .error e
  | .ok team =>
    if team.status ≠ "available" then
      .error ⟨.conflict, "Team is not available. Current status: " ++ team.status⟩
    else
      let team2 := { team with status := "on_mission" }
      .ok (setTeam db id team2, team2)

/-- RescueTeamService.setTeamAvailable: unconditionally sets the status back
to available (no precondition beyond existence). -/
def setTeamAvailable (db : DB) (id : Nat) : Except Err (DB × RescueTeam) :=
  match getTeamById db id with
  | .error e => .error e
  | .ok team =>
    let team2 := { team with status := "available" }
    .ok (setTeam db id team2, team2)

/-- JS String.prototype.trim: strip leading and trailing whitespace,
modelled on the character list. -/
def jsTrim (s : String) : String :=
  ⟨((s.data.dropWhile Char.isWhitespace).reverse.dropWhile
    Char.isWhitespace).reverse⟩

/-- Input body for `createRescueRequest` (fields destructured by the source). -/
structure RequestData where
  category : Option String
  province_city : Option String
  phone_number : Option String
  description : Option String
  num_people : Option Int
  priority : Option String
  location_type : Option String
  latitude : Option Int
  longitude : Option Int
  address : Option String
  media_urls : Option (List String)
deriving DecidableEq, Repr

/-- RescueRequestService.createRescueRequest: required-field and
location-data validation (JS truthiness, so the number 0 counts as
missing), then builds the row with status new and the defaults of the
source. `userId` is the authenticated caller or none when anonymous. -/
def createRescueRequest (d : RequestData) (userId : Option Nat) :
    Except Err RescueRequest :=
  if !truthyS d.category || !truthyS d.province_city || !truthyS d.phone_number
      || !truthyS d.description || !truthyS d.location_type then
    .error ⟨.validation, "Missing required fields"⟩
  else if d.location_type = some "gps" ∧ (!truthyN d.latitude || !truthyN d.longitude) then
    .error ⟨.validation, "GPS coordinates are required for GPS location type"⟩
  else if d.location_type = some "manual" ∧ !truthyS d.address then
    .error ⟨.validation, "Address is required for manual location type"⟩
  else
    .ok
      { category := d.category.getD ""
        province_city := d.province_city.getD ""
        phone_number := d.phone_number.getD ""
        description := d.description.getD ""
        num_people := if truthyN d.num_people then d.num_people.getD 1 else 1
        priority := d.priority
        status := "new"
        location_type := d.location_type.getD ""
        latitude := if d.location_type = some "gps" then d.latitude else none
        longitude := if d.location_type = some "gps" then d.longitude else none
        address := if d.location_type = some "manual" then d.address else none
        media_urls := d.media_urls.getD []
        user_id := userId
        verified_by := none
        verified_at := none
        notes := none
        assigned_team_id := none
        assigned_at := none
        assigned_by := none
        deletedAt := none }

/-- RescueRequestService.getRescueRequestById: NotFoundError when absent or
soft-deleted. -/
def getRescueRequestById (db : DB) (id : Nat) : Except Err RescueRequest :=
  match findReq db id with
  | none => .error ⟨.notFound, "Rescue request not found"⟩
  | some r => .ok r

/-- RescueRequestService.approveRescueRequest: status must be new, the actor
must exist with role coordinator or admin; then sets
status=pending_verification, verified_by, verified_at and the notes (or a
default audit string when the passed notes are falsy). -/
def approveRescueRequest (db : DB) (id : Nat) (coordinatorId : Nat)
    (notes : Option String) (now : Nat) : Except Err (DB × RescueRequest) :=
  match getRescueRequestById db id with
  | .error e => .error e
  | .ok request =>
    if request.status ≠ "new" then
      .error ⟨.state, "Cannot approve request with status " ++ request.status
        ++ ". Only new requests can be approved."⟩
    else
      match findUser db coordinatorId with
      | none => .error ⟨.notFound, "Coordinator not found"⟩
      | some coordinator =>
        if coordinator.role ∉ ["coordinator", "admin"] then
          .error ⟨.forbidden, "Only coordinators or admins can approve requests"⟩
        else
          let updated := { request with
            status := "pending_verification"
            verified_by := some coordinatorId
            verified_at := some now
            notes := if truthyS notes then notes
              else some "Request approved by coordinator" }
          .ok (setReq db id updated, updated)

/-- RescueRequestService.rejectRescueRequest: reason required and non-blank,
status must be new, actor must exist with role coordinator or admin; then
sets status=rejected, verified_by, verified_at and notes = "Rejected: "
followed by the reason. -/
def rejectRescueRequest (db : DB) (id : Nat) (coordinatorId : Nat)
    (reason : Option String) (now : Nat) : Except Err (DB × RescueRequest) :=
  if !truthyS reason || (jsTrim (reason.getD "") == "") then
    .error ⟨.validation, "Rejection reason is required"⟩
  else
    match getRescueRequestById db id with
    | .error e => .error e
    | .ok request =>
      if request.status ≠ "new" then
        .error ⟨.state, "Cannot reject request with status " ++ request.status
          ++ ". Only new requests can be rejected."⟩
      else
        match findUser db coordinatorId with
        | none => .error ⟨.notFound, "Coordinator not found"⟩
        | some coordinator =>
          if coordinator.role ∉ ["coordinator", "admin"] then
            .error ⟨.forbidden, "Only coordinators or admins can reject requests"⟩
          else
            let updated := { request with
              status := "rejected"
              verified_by := some coordinatorId
              verified_at := some now
              notes := some ("Rejected: " ++ reason.getD "") }
            .ok (setReq db id updated, updated)

/-- RescueRequestService.assignTeamToRequest: request must be in
pending_verification, actor must exist with role coordinator or admin, the
team must exist and be available; then, in one transaction, the request
becomes on_mission with the assignment columns set and the team becomes
on_mission. -/
def assignTeamToRequest (db : DB) (requestId : Nat) (teamId : Nat)
    (coordinatorId : Nat) (now : Nat) :
    Except Err (DB × RescueRequest × RescueTeam) :=
  match getRescueRequestById db requestId with
  | .error e => .error e
  | .ok request =>
    if request.status ≠ "pending_verification" then
      .error ⟨.state, "Cannot assign team to request with status "
        ++ request.status ++ ". Only pending_verification requests can be assigned."⟩
    else
      match findUser db coordinatorId with
      | none => .error ⟨.notFound, "Coordinator not found"⟩
      | some coordinator =>
        if coordinator.role ∉ ["coordinator", "admin"] then
          .error ⟨.forbidden, "Only coordinators or admins can assign teams"⟩
        else
          match getTeamById db teamId with
          | .error e => .error e
          | .ok team =>
            if team.status ≠ "available" then
              .error ⟨.conflict, "Team " ++ team.name
                ++ " is not available. Current status: " ++ team.status⟩
            else
              let request2 := { request with
                status := "on_mission"
                assigned_team_id := some teamId
                assigned_at := some now
                assigned_by := some coordinatorId }
              let team2 := { team with status := "on_mission" }
              .ok (setTeam (setReq db requestId request2) teamId team2,
                request2, team2)

/-- RescueRequestService.completeMission: request must be on_mission, actor
must exist with role coordinator or admin, a team must be assigned; then, in
one transaction, the request becomes completed (appending the truthy
completion notes to the prior notes) and the team becomes available. -/
def completeMission (db : DB) (requestId : Nat) (coordinatorId : Nat)
    (completionNotes : Option String) :
    Except Err (DB × RescueRequest × RescueTeam) :=
  match getRescueRequestById db requestId with
  | .error e => .error e
  | .ok request =>
    if request.status ≠ "on_mission" then
      .error ⟨.state, "Cannot complete request with status " ++ request.status
        ++ ". Only on_mission requests can be completed."⟩
    else
      match findUser db coordinatorId with
      | none => .error ⟨.notFound, "Coordinator not found"⟩
      | some coordinator =>
        if coordinator.role ∉ ["coordinator", "admin"] then
          .error ⟨.forbidden, "Only coordinators or admins can complete missions"⟩
        else
          match request.assigned_team_id with
          | none => .error ⟨.state, "No team assigned to this request"⟩
          | some teamId =>
            match getTeamById db teamId with
            | .error e => .error e
            | .ok team =>
              let request2 := { request with
                status := "completed"
                notes := if truthyS completionNotes then
                    some ((request.notes.getD "") ++ "\nCompleted: "
                      ++ completionNotes.getD "")
                  else request.notes }
              let team2 := { team with status := "available" }
              .ok (setTeam (setReq db requestId request2) teamId team2,
                request2, team2)

/-- Patch body for `updateRescueRequest`; a `none` field is JS `undefined`
and is dropped by the whitelist filter. -/
structure UpdateData where
  status : Option String
  priority : Option String
  notes : Option String
  verified_by : Option Nat
  verified_at : Option Nat
deriving DecidableEq, Repr

/-- RescueRequestService.updateRescueRequest: applies the whitelisted fields
of the patch verbatim, with no state-machine check; when the patch sets
status to the string "verified" and a userId is present it also stamps
verified_by and verified_at. -/
def updateRescueRequest (db : DB) (id : Nat) (u : UpdateData)
    (userId : Option Nat) (now : Nat) : Except Err (DB × RescueRequest) :=
  match getRescueRequestById db id with
  | .error e => .error e
  | .ok request =>
    let r1 := { request with
      status := u.status.getD request.status
      priority := match u.priority with | some p => some p | none => request.priority
      notes := match u.notes with | some n => some n | none => request.notes
      verified_by := match u.verified_by with | some v => some v | none => request.verified_by
      verified_at := match u.verified_at with | some v => some v | none => request.verified_at }
    let r2 := if u.status = some "verified" ∧ userId.isSome then
        { r1 with verified_by := userId, verified_at := some now }
      else r1
    .ok (setReq db id r2, r2)

/-- RescueRequestService.deleteRescueRequest: soft delete of the request and
nothing else (the assigned team, if any, is not touched). -/
def deleteRescueRequest (db : DB) (id : Nat) (now : Nat) : Except Err DB :=
  match getRescueRequestById db id with
  | .error e => .error e
  | .ok request =>
    .ok (setReq db id { request with deletedAt := some now })

/-- True when some non-deleted request with status on_mission references the
team through assigned_team_id (the active request of the invariant in the
design document). -/
def teamHasActiveRequest (db : DB) (teamId : Nat) : Bool :=
  db.requests.any (fun p => p.2.deletedAt.isNone && p.2.status == "on_mission"
    && p.2.assigned_team_id == some teamId)

/-- The request-status transition table of the design document:
new to pending_verification or rejected, pending_verification to
on_mission, on_mission to completed. -/
def statusStep (a b : String) : Bool :=
  (a == "new" && b == "pending_verification") ||
  (a == "new" && b == "rejected") ||
  (a == "pending_verification" && b == "on_mission") ||
  (a == "on_mission" && b == "completed")

/-- The latitude validate bound of rescue_requests.model.js (min -90, max 90). -/
def latInRange (x : Int) : Bool := (-90 ≤ x) && (x ≤ 90)

/-- The longitude validate bound of rescue_requests.model.js (min -180, max 180). -/
def lonInRange (x : Int) : Bool := (-180 ≤ x) && (x ≤ 180)

/-- A baseline request row used by the concrete scenarios below. -/
def req0 : RescueRequest :=
  { category := "rescue"
    province_city := "HCMC"
    phone_number := "0900000000"
    description := "trapped on roof, flooding"
    num_people := 1
    priority := none
    status := "new"
    location_type := "gps"
    latitude := some 10
    longitude := some 106
    address := none
    media_urls := []
    user_id := none
    verified_by := none
    verified_at := none
    notes := none
    assigned_team_id := none
    assigned_at := none
    assigned_by := none
    deletedAt := none }

/-- A baseline team row used by the concrete scenarios below. -/
def team0 : RescueTeam :=
  { name := "Alpha"
    leader_name := "Binh"
    phone_number := "0911222333"
    specialization := "general"
    capacity := 5
    current_members := 3
    status := "available"
    province_city := "HCMC"
    equipment := []
    notes := none
    deletedAt := none }

/-- Scenario: one pending_verification request, one available team, a
coordinator (id 3) and a citizen (id 4). -/
def dbA : DB :=
  { requests := [(1, { req0 with status := "pending_verification" })]
    teams := [(2, team0)]
    users := [(3, { role := "coordinator" }), (4, { role := "citizen" })] }

/-- Scenario: request 1 is on_mission with team 2 assigned and prior notes,
team 2 is on_mission, user 3 is an admin. -/
def dbB : DB :=
  { requests :=
      [(1, { req0 with status := "on_mission", assigned_team_id := some 2, notes := some "x" })]
    teams := [(2, { team0 with status := "on_mission" })]
    users := [(3, { role := "admin" })] }

/-- Scenario: a completed (terminal) request. -/
def dbC : DB :=
  { requests := [(1, { req0 with status := "completed", assigned_team_id := some 2 })]
    teams := []
    users := [] }

/-- Scenario: one fresh request, one new user, one coordinator. -/
def dbD : DB :=
  { requests := [(1, req0)]
    teams := []
    users := [(3, { role := "coordinator" })] }

/-- Scenario: a single unavailable team. -/
def dbU : DB :=
  { requests := []
    teams := [(2, { team0 with status := "unavailable" })]
    users := [] }

/-- Scenario: a single available team. -/
def dbT : DB :=
  { requests := []
    teams := [(2, team0)]
    users := [] }

/-- A patch that sets the status to the dead enum value "verified". -/
def updVerified : UpdateData :=
  { status := some "verified", priority := none, notes := none
    verified_by := none, verified_at := none }

/-- A well-formed GPS submission except that the latitude is the in-range
number 0. -/
def d9 : RequestData :=
  { category := some "rescue", province_city := some "HCMC"
    phone_number := some "0900000000"
    description := some "trapped on roof, flooding"
    num_people := none, priority := none, location_type := some "gps"
    latitude := some 0, longitude := some 106, address := none
    media_urls := none }

/-- The same submission with a nonzero latitude. -/
def dOK : RequestData := { d9 with latitude := some 10 }

/-- A minimal createTeam body omitting every defaultable field. -/
def tdata : TeamData :=
  { name := some "Alpha", leader_name := some "Binh"
    phone_number := some "0911222333", specialization := none
    capacity := none, current_members := none
    province_city := some "HCMC", equipment := none, notes := none }

end WDP

namespace WDP

theorem find_map_set {α : Type} (l : List (Nat × α)) (id : Nat) (r : α)
    (h : (l.find? (fun p => p.1 == id)).isSome = true) :
    (l.map (fun p => if p.1 == id then (id, r) else p)).find?
      (fun p => p.1 == id) = some (id, r) := by
  induction l with
  | nil => simp at h
  | cons a l ih =>
    rw [List.map_cons]
    by_cases ha : a.1 = id
    · rw [if_pos (by simp [ha])]
      exact List.find?_cons_of_pos _ (by simp)
    · rw [if_neg (by simp [ha])]
      rw [List.find?_cons_of_neg _ (by simp [ha])]
      apply ih
      rw [List.find?_cons_of_neg _ (by simp [ha])] at h
      exact h

theorem find_map_set_ne {α : Type} (l : List (Nat × α)) (id k : Nat)
    (hk : k ≠ id) (r : α) :
    (l.map (fun p => if p.1 == id then (id, r) else p)).find?
      (fun p => p.1 == k) = l.find? (fun p => p.1 == k) := by
  induction l with
  | nil => rfl
  | cons a l ih =>
    rw [List.map_cons]
    by_cases ha : a.1 = id
    · rw [if_pos (by simp [ha])]
      rw [List.find?_cons_of_neg _ (by simp [Ne.symm hk]),
        List.find?_cons_of_neg _ (by simp [ha, Ne.symm hk])]
      exact ih
    · rw [if_neg (by simp [ha])]
      by_cases hk2 : a.1 = k
      · rw [List.find?_cons_of_pos _ (by simp [hk2]),
          List.find?_cons_of_pos _ (by simp [hk2])]
      · rw [List.find?_cons_of_neg _ (by simp [hk2]),
          List.find?_cons_of_neg _ (by simp [hk2])]
        exact ih

theorem findRow_some {α : Type} {rows : List (Nat × α)} {gd : α → Option Nat}
    {id : Nat} {r : α} (h : findRow rows gd id = some r) :
    rows.find? (fun p => p.1 == id) = some (id, r) ∧ gd r = none := by
  cases hf : rows.find? (fun p => p.1 == id) with
  | none =>
    unfold findRow at h
    rw [hf] at h
    exact absurd h (by simp)
  | some p =>
    obtain ⟨k, r0⟩ := p
    have hp := List.find?_some hf
    have hk : k = id := by simpa using hp
    have h2 : (if (gd r0).isSome then none else some r0) = some r := by
      unfold findRow at h
      rw [hf] at h
      exact h
    by_cases hd : (gd r0).isSome
    · rw [if_pos hd] at h2
      exact absurd h2 (by simp)
    · rw [if_neg hd] at h2
      have hr : r0 = r := by simpa using h2
      subst hk hr
      exact ⟨rfl, Option.not_isSome_iff_eq_none.mp hd⟩

theorem findReq_setReq_self {db : DB} {id : Nat} {r0 r : RescueRequest}
    (h : findReq db id = some r0) :
    findReq (setReq db id r) id =
      if r.deletedAt.isSome then none else some r := by
  have hf := (findRow_some h).1
  unfold findReq findRow setReq
  simp only
  rw [find_map_set db.requests id r (by rw [hf]; rfl)]

theorem findReq_setReq_ne {db : DB} {id k : Nat} (hk : k ≠ id)
    (r : RescueRequest) : findReq (setReq db id r) k = findReq db k := by
  unfold findReq findRow setReq
  simp only
  rw [find_map_set_ne db.requests id k hk r]

theorem findTeam_setTeam_self {db : DB} {id : Nat} {t0 t : RescueTeam}
    (h : findTeam db id = some t0) :
    findTeam (setTeam db id t) id =
      if t.deletedAt.isSome then none else some t := by
  have hf := (findRow_some h).1
  unfold findTeam findRow setTeam
  simp only
  rw [find_map_set db.teams id t (by rw [hf]; rfl)]

theorem findTeam_setTeam_ne {db : DB} {id k : Nat} (hk : k ≠ id)
    (t : RescueTeam) : findTeam (setTeam db id t) k = findTeam db k := by
  unfold findTeam findRow setTeam
  simp only
  rw [find_map_set_ne db.teams id k hk t]

theorem findReq_setTeam (db : DB) (id k : Nat) (t : RescueTeam) :
    findReq (setTeam db id t) k = findReq db k := rfl

theorem findTeam_setReq (db : DB) (id k : Nat) (r : RescueRequest) :
    findTeam (setReq db id r) k = findTeam db k := rfl

theorem findUser_setReq (db : DB) (id k : Nat) (r : RescueRequest) :
    findUser (setReq db id r) k = findUser db k := rfl

end WDP

namespace WDP

/-- C9: a GPS submission whose latitude is the number 0 — inside the
documented range [-90, 90] — is rejected by createRescueRequest with the
GPS-coordinates-required ValidationError, because the JS truthiness
presence check treats 0 as missing. -/
theorem c9_zero_latitude_rejected :
    latInRange 0 = true ∧ lonInRange 106 = true ∧
    d9.location_type = some "gps" ∧ d9.latitude = some 0 ∧
    createRescueRequest d9 none =
      .error ⟨.validation, "GPS coordinates are required for GPS location type"⟩ :=
  ⟨rfl, rfl, rfl, rfl, rfl⟩

/-- C10: for every existing team, setTeamAvailable succeeds and sets the
status to available with no precondition on the current status, while
setTeamOnMission fails with ConflictError unless the current status is
exactly available. -/
theorem c10_direct_transitions (db : DB) (tid : Nat) (t : RescueTeam)
    (ht : findTeam db tid = some t) :
    setTeamAvailable db tid =
      .ok (setTeam db tid { t with status := "available" },
        { t with status := "available" }) ∧
    (t.status ≠ "available" →
      setTeamOnMission db tid =
        .error ⟨.conflict, "Team is not available. Current status: " ++ t.status⟩) ∧
    (t.status = "available" →
      setTeamOnMission db tid =
        .ok (setTeam db tid { t with status := "on_mission" },
          { t with status := "on_mission" })) := by
  refine ⟨?_, ?_, ?_⟩
  · simp only [setTeamAvailable, getTeamById, ht]
  · intro hs
    simp only [setTeamOnMission, getTeamById, ht]
    rw [if_pos hs]
  · intro hs
    simp only [setTeamOnMission, getTeamById, ht]
    rw [if_neg (by simp [hs])]

/-- Witness for c10_direct_transitions on the concrete unavailable team of
dbU: setTeamOnMission conflicts and setTeamAvailable still succeeds. -/
theorem c10_direct_transitions_witness :
    findTeam dbU 2 = some { team0 with status := "unavailable" } ∧
    setTeamOnMission dbU 2 =
      .error ⟨.conflict, "Team is not available. Current status: unavailable"⟩ := by
  refine ⟨rfl, ?_⟩
  exact (c10_direct_transitions dbU 2 { team0 with status := "unavailable" }
    rfl).2.1 (by decide)

/-- C8: deleteTeam on an on_mission team fails with ConflictError, and on an
available team succeeds by soft delete, after which getTeamById fails with
NotFoundError. -/
theorem c8_deleteTeam_spec (db : DB) (tid now : Nat) (t : RescueTeam)
    (ht : findTeam db tid = some t) :
    (t.status = "on_mission" →
      deleteTeam db tid now =
        .error ⟨.conflict, "Cannot delete team that is currently on mission"⟩) ∧
    (t.status = "available" →
      deleteTeam db tid now = .ok (setTeam db tid { t with deletedAt := some now }) ∧
      getTeamById (setTeam db tid { t with deletedAt := some now }) tid =
        .error ⟨.notFound, "Team not found"⟩) := by
  constructor
  · intro hs
    simp only [deleteTeam, getTeamById, ht]
    rw [if_pos hs]
  · intro hs
    constructor
    · simp only [deleteTeam, getTeamById, ht]
      rw [if_neg (by simp [hs])]
    · simp only [getTeamById, findTeam_setTeam_self ht]
      simp

/-- Witness for c8_deleteTeam_spec: deleting the available team of dbT
succeeds and the team is no longer retrievable. -/
theorem c8_deleteTeam_spec_witness :
    findTeam dbT 2 = some team0 ∧
    getTeamById (setTeam dbT 2 { team0 with deletedAt := some 80 }) 2 =
      .error ⟨.notFound, "Team not found"⟩ :=
  ⟨rfl, ((c8_deleteTeam_spec dbT 2 80 team0 rfl).2 (by decide)).2⟩

/-- C7: createTeam fails with ValidationError when name, leader_name,
phone_number or province_city is missing or empty; fails with ConflictError
whenever a non-deleted team with the same name exists (only the name is
consulted); on success applies the documented defaults for every omitted
field. -/
theorem c7_createTeam_spec (db : DB) (d : TeamData) (newId : Nat) :
    ((truthyS d.name = false ∨ truthyS d.leader_name = false ∨
      truthyS d.phone_number = false ∨ truthyS d.province_city = false) →
      createTeam db d newId = .error ⟨.validation, "Missing required fields"⟩) ∧
    (truthyS d.name = true → truthyS d.leader_name = true →
      truthyS d.phone_number = true → truthyS d.province_city = true →
      ∀ t0, findTeamByName db (d.name.getD "") = some t0 →
      createTeam db d newId = .error ⟨.conflict, "Team with this name already exists"⟩) ∧
    (∀ db2 t, createTeam db d newId = .ok (db2, t) →
      t.status = "available" ∧
      (d.specialization = none → t.specialization = "general") ∧
      (d.capacity = none → t.capacity = 5) ∧
      (d.current_members = none → t.current_members = 0) ∧
      (d.equipment = none → t.equipment = [])) := by
  refine ⟨?_, ?_, ?_⟩
  · intro h
    unfold createTeam
    rcases h with h | h | h | h <;> rw [if_pos (by simp [h])]
  · intro h1 h2 h3 h4 t0 hfind
    unfold createTeam
    rw [if_neg (by simp [h1, h2, h3, h4]), if_pos (by simp [hfind])]
  · intro db2 t hok
    unfold createTeam at hok
    split at hok
    · exact absurd hok (by simp)
    · split at hok
      · exact absurd hok (by simp)
      · simp only [Except.ok.injEq, Prod.mk.injEq] at hok
        obtain ⟨-, ht⟩ := hok
        subst ht
        refine ⟨rfl, ?_, ?_, ?_, ?_⟩ <;> intro hn <;> simp [hn, truthyS, truthyN]

/-- Witness for c7_createTeam_spec: the minimal body tdata against the
scenario dbT (which already holds a non-deleted team named Alpha) conflicts;
against an empty database the defaults land. -/
theorem c7_createTeam_spec_witness :
    findTeamByName dbT "Alpha" = some team0 ∧
    createTeam dbT tdata 5 =
      .error ⟨.conflict, "Team with this name already exists"⟩ := by
  refine ⟨rfl, ?_⟩
  exact (c7_createTeam_spec dbT tdata 5).2.1 rfl rfl rfl rfl team0 rfl

/-- C6: createRescueRequest fails with ValidationError when a required field
is missing, when a GPS submission lacks a coordinate, or when a manual
submission lacks an address; on success the request has status new,
num_people defaulting to 1, and the creator set from userId (which may be
absent). -/
theorem c6_createRequest_spec (d : RequestData) (userId : Option Nat) :
    ((truthyS d.category = false ∨ truthyS d.province_city = false ∨
      truthyS d.phone_number = false ∨ truthyS d.description = false ∨
      truthyS d.location_type = false) →
      createRescueRequest d userId = .error ⟨.validation, "Missing required fields"⟩) ∧
    (d.location_type = some "gps" →
      (truthyN d.latitude = false ∨ truthyN d.longitude = false) →
      ∃ m, createRescueRequest d userId = .error ⟨.validation, m⟩) ∧
    (d.location_type = some "manual" → truthyS d.address = false →
      ∃ m, createRescueRequest d userId = .error ⟨.validation, m⟩) ∧
    (∀ r, createRescueRequest d userId = .ok r →
      r.status = "new" ∧ (d.num_people = none → r.num_people = 1) ∧
      r.user_id = userId) := by
  refine ⟨?_, ?_, ?_, ?_⟩
  · intro h
    unfold createRescueRequest
    rcases h with h | h | h | h | h <;> rw [if_pos (by simp [h])]
  · intro hg hc
    by_cases h5 : !truthyS d.category || !truthyS d.province_city
        || !truthyS d.phone_number || !truthyS d.description
        || !truthyS d.location_type
    · refine ⟨"Missing required fields", ?_⟩
      unfold createRescueRequest
      rw [if_pos h5]
    · refine ⟨"GPS coordinates are required for GPS location type", ?_⟩
      unfold createRescueRequest
      rw [if_neg (by simpa using h5)]
      rcases hc with hc | hc <;> rw [if_pos (by simp [hg, hc])]
  · intro hm ha
    by_cases h5 : !truthyS d.category || !truthyS d.province_city
        || !truthyS d.phone_number || !truthyS d.description
        || !truthyS d.location_type
    · refine ⟨"Missing required fields", ?_⟩
      unfold createRescueRequest
      rw [if_pos h5]
    · refine ⟨"Address is required for manual location type", ?_⟩
      unfold createRescueRequest
      rw [if_neg (by simpa using h5), if_neg (by simp [hm]), if_pos (by simp [hm, ha])]
  · intro r hok
    unfold createRescueRequest at hok
    split at hok
    · exact absurd hok (by simp)
    · split at hok
      · exact absurd hok (by simp)
      · split at hok
        · exact absurd hok (by simp)
        · simp only [Except.ok.injEq] at hok
          subst hok
          exact ⟨rfl, fun hn => by simp [hn, truthyN], rfl⟩

/-- Witness for c6_createRequest_spec: the valid anonymous GPS submission
dOK succeeds with status new, num_people 1 and no creator, and dropping the
address from a manual submission is rejected. -/
theorem c6_createRequest_spec_witness :
    (∃ r, createRescueRequest dOK none = .ok r ∧ r.status = "new" ∧
      r.num_people = 1 ∧ r.user_id = none) ∧
    (∃ m, createRescueRequest { dOK with location_type := some "manual" } none =
      .error ⟨.validation, m⟩) := by
  constructor
  · refine ⟨_, rfl, ?_⟩
    have h := (c6_createRequest_spec dOK none).2.2.2 _ rfl
    exact ⟨h.1, h.2.1 rfl, h.2.2⟩
  · exact (c6_createRequest_spec { dOK with location_type := some "manual" }
      none).2.2.1 rfl rfl

/-- C5: approveRescueRequest and rejectRescueRequest fail with NotFoundError
when the request is absent, StateError unless its status is new,
NotFoundError when the actor is absent and ForbiddenError unless the actor
is a coordinator or admin; reject additionally fails with ValidationError
when the reason is missing (null) or blank (empty or whitespace-only, via
the trim check). On success approve sets status pending_verification and
reject sets status rejected with notes "Rejected: " plus the reason, both
stamping verified_by and verified_at. -/
theorem c5_approve_reject_spec (db : DB) (id aid now : Nat)
    (notes : Option String) (reason : String) (hreason : jsTrim reason ≠ "") :
    (findReq db id = none →
      approveRescueRequest db id aid notes now =
        .error ⟨.notFound, "Rescue request not found"⟩ ∧
      rejectRescueRequest db id aid (some reason) now =
        .error ⟨.notFound, "Rescue request not found"⟩) ∧
    (∀ r, findReq db id = some r → r.status ≠ "new" →
      (∃ m, approveRescueRequest db id aid notes now = .error ⟨.state, m⟩) ∧
      (∃ m, rejectRescueRequest db id aid (some reason) now = .error ⟨.state, m⟩)) ∧
    (∀ r, findReq db id = some r → r.status = "new" → findUser db aid = none →
      approveRescueRequest db id aid notes now =
        .error ⟨.notFound, "Coordinator not found"⟩ ∧
      rejectRescueRequest db id aid (some reason) now =
        .error ⟨.notFound, "Coordinator not found"⟩) ∧
    (∀ r a, findReq db id = some r → r.status = "new" → findUser db aid = some a →
      a.role ∉ (["coordinator", "admin"] : List String) →
      approveRescueRequest db id aid notes now =
        .error ⟨.forbidden, "Only coordinators or admins can approve requests"⟩ ∧
      rejectRescueRequest db id aid (some reason) now =
        .error ⟨.forbidden, "Only coordinators or admins can reject requests"⟩) ∧
    (∀ r a, findReq db id = some r → r.status = "new" → findUser db aid = some a →
      a.role ∈ (["coordinator", "admin"] : List String) →
      approveRescueRequest db id aid notes now =
        .ok (setReq db id
            { r with
              status := "pending_verification"
              verified_by := some aid
              verified_at := some now
              notes := if truthyS notes then notes
                else some "Request approved by coordinator" },
          { r with
            status := "pending_verification"
            verified_by := some aid
            verified_at := some now
            notes := if truthyS notes then notes
              else some "Request approved by coordinator" }) ∧
      rejectRescueRequest db id aid (some reason) now =
        .ok (setReq db id
            { r with
              status := "rejected"
              verified_by := some aid
              verified_at := some now
              notes := some ("Rejected: " ++ reason) },
          { r with
            status := "rejected"
            verified_by := some aid
            verified_at := some now
            notes := some ("Rejected: " ++ reason) })) ∧
    (rejectRescueRequest db id aid none now =
      .error ⟨.validation, "Rejection reason is required"⟩) ∧
    (∀ s, jsTrim s = "" →
      rejectRescueRequest db id aid (some s) now =
        .error ⟨.validation, "Rejection reason is required"⟩) := by
  have hne : reason ≠ "" := by
    intro he
    exact hreason (by rw [he]; rfl)
  have h1 : truthyS (some reason) = true := by simp [truthyS, hne]
  have h2 : (jsTrim ((some reason).getD "") == "") = false := by
    simpa using hreason
  have hres : (!truthyS (some reason) || (jsTrim ((some reason).getD "") == "")) = false := by
    rw [h1, h2]
    rfl
  refine ⟨?_, ?_, ?_, ?_, ?_, ?_, ?_⟩
  · intro hnone
    constructor
    · simp only [approveRescueRequest, getRescueRequestById, hnone]
    · simp only [rejectRescueRequest, getRescueRequestById, hnone]
      rw [if_neg (by simp only [hres]; simp)]
  · intro r hr hs
    constructor
    · refine ⟨"Cannot approve request with status " ++ r.status
        ++ ". Only new requests can be approved.", ?_⟩
      simp only [approveRescueRequest, getRescueRequestById, hr]
      rw [if_pos hs]
    · refine ⟨"Cannot reject request with status " ++ r.status
        ++ ". Only new requests can be rejected.", ?_⟩
      simp only [rejectRescueRequest, getRescueRequestById, hr]
      rw [if_neg (by simp only [hres]; simp), if_pos hs]
  · intro r hr hs hu
    constructor
    · simp only [approveRescueRequest, getRescueRequestById, hr, hu]
      rw [if_neg (by simp [hs])]
    · simp only [rejectRescueRequest, getRescueRequestById, hr, hu]
      rw [if_neg (by simp only [hres]; simp), if_neg (by simp [hs])]
  · intro r a hr hs hu hrole
    constructor
    · simp only [approveRescueRequest, getRescueRequestById, hr, hu]
      rw [if_neg (by simp [hs]), if_pos hrole]
    · simp only [rejectRescueRequest, getRescueRequestById, hr, hu]
      rw [if_neg (by simp only [hres]; simp), if_neg (by simp [hs]), if_pos hrole]
  · intro r a hr hs hu hrole
    constructor
    · simp only [approveRescueRequest, getRescueRequestById, hr, hu]
      rw [if_neg (by simp [hs]), if_neg (by simp [hrole])]
    · simp only [rejectRescueRequest, getRescueRequestById, hr, hu]
      rw [if_neg (by simp only [hres]; simp), if_neg (by simp [hs]), if_neg (by simp [hrole])]
      rfl
  · simp only [rejectRescueRequest]
    rw [if_pos (by simp [truthyS])]
  · intro s hblank
    simp only [rejectRescueRequest]
    rw [if_pos (by simp [hblank])]

/-- Witness for c5_approve_reject_spec: on the fresh request of dbD the
coordinator approves successfully, and both a missing and a
whitespace-only rejection reason fail with ValidationError. -/
theorem c5_approve_reject_spec_witness :
    findReq dbD 1 = some req0 ∧
    approveRescueRequest dbD 1 3 none 7 =
      .ok (setReq dbD 1
          { req0 with
            status := "pending_verification"
            verified_by := some 3
            verified_at := some 7
            notes := some "Request approved by coordinator" },
        { req0 with
          status := "pending_verification"
          verified_by := some 3
          verified_at := some 7
          notes := some "Request approved by coordinator" }) ∧
    rejectRescueRequest dbD 1 3 none 7 =
      .error ⟨.validation, "Rejection reason is required"⟩ ∧
    rejectRescueRequest dbD 1 3 (some "   ") 7 =
      .error ⟨.validation, "Rejection reason is required"⟩ := by
  have h := c5_approve_reject_spec dbD 1 3 7 none "duplicate report"
    (by decide)
  refine ⟨rfl, ?_, h.2.2.2.2.2.1, h.2.2.2.2.2.2 "   " (by decide)⟩
  have h5 := h.2.2.2.2.1 req0 { role := "coordinator" } rfl rfl rfl
    (by decide)
  simpa using h5.1

/-- C1: assignTeamToRequest succeeds exactly when the request is in
pending_verification, the actor exists with role coordinator or admin, and
the team is available; the failure kinds are StateError, NotFoundError,
ForbiddenError and ConflictError respectively; on success the request is
on_mission with assigned_team_id, assigned_at and assigned_by set and the
team is on_mission, with both rows updated in the single returned database
state (the transaction). -/
theorem c1_assignTeam_spec (db : DB) (rid tid aid now : Nat)
    (r : RescueRequest) (t : RescueTeam)
    (hr : findReq db rid = some r) (ht : findTeam db tid = some t) :
    ((∃ out, assignTeamToRequest db rid tid aid now = .ok out) ↔
      (r.status = "pending_verification" ∧
       (∃ a, findUser db aid = some a ∧
         a.role ∈ (["coordinator", "admin"] : List String)) ∧
       t.status = "available")) ∧
    (r.status ≠ "pending_verification" →
      ∃ m, assignTeamToRequest db rid tid aid now = .error ⟨.state, m⟩) ∧
    (r.status = "pending_verification" → findUser db aid = none →
      assignTeamToRequest db rid tid aid now =
        .error ⟨.notFound, "Coordinator not found"⟩) ∧
    (∀ a, r.status = "pending_verification" → findUser db aid = some a →
      a.role ∉ (["coordinator", "admin"] : List String) →
      assignTeamToRequest db rid tid aid now =
        .error ⟨.forbidden, "Only coordinators or admins can assign teams"⟩) ∧
    (∀ a, r.status = "pending_verification" → findUser db aid = some a →
      a.role ∈ (["coordinator", "admin"] : List String) → t.status ≠ "available" →
      ∃ m, assignTeamToRequest db rid tid aid now = .error ⟨.conflict, m⟩) ∧
    (∀ db2 r2 t2, assignTeamToRequest db rid tid aid now = .ok (db2, r2, t2) →
      r2 = { r with
        status := "on_mission"
        assigned_team_id := some tid
        assigned_at := some now
        assigned_by := some aid } ∧
      t2 = { t with status := "on_mission" } ∧
      findReq db2 rid = some r2 ∧ findTeam db2 tid = some t2) := by
  have hrdel : r.deletedAt = none := (findRow_some hr).2
  have htdel : t.deletedAt = none := (findRow_some ht).2
  have herr_state : r.status ≠ "pending_verification" →
      assignTeamToRequest db rid tid aid now =
        .error ⟨.state, "Cannot assign team to request with status "
          ++ r.status ++ ". Only pending_verification requests can be assigned."⟩ := by
    intro hs
    simp only [assignTeamToRequest, getRescueRequestById, hr]
    rw [if_pos hs]
  have herr_nf : r.status = "pending_verification" → findUser db aid = none →
      assignTeamToRequest db rid tid aid now =
        .error ⟨.notFound, "Coordinator not found"⟩ := by
    intro hs hu
    simp only [assignTeamToRequest, getRescueRequestById, hr, hu]
    rw [if_neg (by simp [hs])]
  have herr_forb : ∀ a, r.status = "pending_verification" →
      findUser db aid = some a →
      a.role ∉ (["coordinator", "admin"] : List String) →
      assignTeamToRequest db rid tid aid now =
        .error ⟨.forbidden, "Only coordinators or admins can assign teams"⟩ := by
    intro a hs hu hrole
    simp only [assignTeamToRequest, getRescueRequestById, hr, hu]
    rw [if_neg (by simp [hs]), if_pos hrole]
  have herr_conf : ∀ a, r.status = "pending_verification" →
      findUser db aid = some a →
      a.role ∈ (["coordinator", "admin"] : List String) → t.status ≠ "available" →
      assignTeamToRequest db rid tid aid now =
        .error ⟨.conflict, "Team " ++ t.name
          ++ " is not available. Current status: " ++ t.status⟩ := by
    intro a hs hu hrole htav
    simp only [assignTeamToRequest, getRescueRequestById, getTeamById, hr, hu, ht]
    rw [if_neg (by simp [hs]), if_neg (by simp [hrole]), if_pos htav]
  have hok_case : ∀ a, r.status = "pending_verification" →
      findUser db aid = some a →
      a.role ∈ (["coordinator", "admin"] : List String) → t.status = "available" →
      assignTeamToRequest db rid tid aid now =
        .ok (setTeam (setReq db rid { r with
              status := "on_mission"
              assigned_team_id := some tid
              assigned_at := some now
              assigned_by := some aid }) tid { t with status := "on_mission" },
          { r with
            status := "on_mission"
            assigned_team_id := some tid
            assigned_at := some now
            assigned_by := some aid },
          { t with status := "on_mission" }) := by
    intro a hs hu hrole htav
    simp only [assignTeamToRequest, getRescueRequestById, getTeamById, hr, hu, ht]
    rw [if_neg (by simp [hs]), if_neg (by simp [hrole]), if_neg (by simp [htav])]
  refine ⟨?_, ?_, herr_nf, herr_forb, ?_, ?_⟩
  · constructor
    · rintro ⟨out, hok⟩
      by_cases hs : r.status = "pending_verification"
      · cases hu : findUser db aid with
        | none => rw [herr_nf hs hu] at hok; exact absurd hok (by simp)
        | some a =>
          by_cases hrole : a.role ∈ (["coordinator", "admin"] : List String)
          · by_cases htav : t.status = "available"
            · exact ⟨hs, ⟨a, rfl, hrole⟩, htav⟩
            · rw [herr_conf a hs hu hrole htav] at hok
              exact absurd hok (by simp)
          · rw [herr_forb a hs hu hrole] at hok
            exact absurd hok (by simp)
      · rw [herr_state hs] at hok
        exact absurd hok (by simp)
    · rintro ⟨hs, ⟨a, hu, hrole⟩, htav⟩
      exact ⟨_, hok_case a hs hu hrole htav⟩
  · intro hs
    exact ⟨_, herr_state hs⟩
  · intro a hs hu hrole htav
    exact ⟨_, herr_conf a hs hu hrole htav⟩
  · intro db2 r2 t2 hok
    by_cases hs : r.status = "pending_verification"
    · cases hu : findUser db aid with
      | none => rw [herr_nf hs hu] at hok; exact absurd hok (by simp)
      | some a =>
        by_cases hrole : a.role ∈ (["coordinator", "admin"] : List String)
        · by_cases htav : t.status = "available"
          · rw [hok_case a hs hu hrole htav] at hok
            simp only [Except.ok.injEq, Prod.mk.injEq] at hok
            obtain ⟨hdb2, hr2, ht2⟩ := hok
            subst hdb2
            subst hr2
            subst ht2
            refine ⟨rfl, rfl, ?_, ?_⟩
            · rw [findReq_setTeam, findReq_setReq_self hr]
              simp [hrdel]
            · have ht' : findTeam (setReq db rid { r with
                  status := "on_mission"
                  assigned_team_id := some tid
                  assigned_at := some now
                  assigned_by := some aid }) tid = some t := by
                rw [findTeam_setReq]; exact ht
              rw [findTeam_setTeam_self ht']
              simp [htdel]
          · rw [herr_conf a hs hu hrole htav] at hok
            exact absurd hok (by simp)
        · rw [herr_forb a hs hu hrole] at hok
          exact absurd hok (by simp)
    · rw [herr_state hs] at hok
      exact absurd hok (by simp)

/-- Witness for c1_assignTeam_spec on dbA: the coordinator assigns the
available team to the pending request successfully. -/
theorem c1_assignTeam_spec_witness :
    findReq dbA 1 = some { req0 with status := "pending_verification" } ∧
    findTeam dbA 2 = some team0 ∧
    (∃ out, assignTeamToRequest dbA 1 2 3 50 = .ok out) := by
  refine ⟨rfl, rfl, ?_⟩
  exact (c1_assignTeam_spec dbA 1 2 3 50
    { req0 with status := "pending_verification" } team0 rfl rfl).1.mpr
    ⟨rfl, ⟨{ role := "coordinator" }, rfl, by decide⟩, rfl⟩

/-- C2 counterexample: completionNotes = some "" is a provided value, yet
completeMission leaves the prior notes "x" untouched instead of appending
the completion text, because JS truthiness treats the empty string as
absent. -/
theorem c2_empty_completion_notes_kept :
    (completeMission dbB 1 3 (some "")).toOption.map (fun p => p.2.1.notes) =
      some (some "x") ∧
    some (some "x") ≠ some (some ("x" ++ "\nCompleted: " ++ "")) :=
  ⟨rfl, by decide⟩

/-- C2 (amended): for an actor with role coordinator or admin,
completeMission fails with StateError unless the request is on_mission with
a team assigned; on success the request is completed and the team available,
both written in the single returned database state, and the notes are the
prior notes with the completion text appended when completionNotes is
provided and non-empty, unchanged otherwise. -/
theorem c2_completeMission_spec (db : DB) (rid aid : Nat) (cn : Option String)
    (r : RescueRequest) (a : UserRec)
    (hr : findReq db rid = some r) (hu : findUser db aid = some a)
    (hrole : a.role ∈ (["coordinator", "admin"] : List String)) :
    (r.status ≠ "on_mission" →
      ∃ m, completeMission db rid aid cn = .error ⟨.state, m⟩) ∧
    (r.status = "on_mission" → r.assigned_team_id = none →
      completeMission db rid aid cn =
        .error ⟨.state, "No team assigned to this request"⟩) ∧
    (∀ tid t, r.status = "on_mission" → r.assigned_team_id = some tid →
      findTeam db tid = some t →
      ∃ db2, completeMission db rid aid cn =
        .ok (db2,
          { r with
            status := "completed"
            notes := if truthyS cn then
                some ((r.notes.getD "") ++ "\nCompleted: " ++ cn.getD "")
              else r.notes },
          { t with status := "available" }) ∧
        findReq db2 rid = some { r with
          status := "completed"
          notes := if truthyS cn then
              some ((r.notes.getD "") ++ "\nCompleted: " ++ cn.getD "")
            else r.notes } ∧
        findTeam db2 tid = some { t with status := "available" }) ∧
    (∀ out, completeMission db rid aid cn = .ok out →
      r.status = "on_mission" ∧ r.assigned_team_id ≠ none) := by
  have hrdel : r.deletedAt = none := (findRow_some hr).2
  refine ⟨?_, ?_, ?_, ?_⟩
  · intro hs
    refine ⟨"Cannot complete request with status " ++ r.status
      ++ ". Only on_mission requests can be completed.", ?_⟩
    simp only [completeMission, getRescueRequestById, hr]
    rw [if_pos hs]
  · intro hs hteam
    simp only [completeMission, getRescueRequestById, hr, hu, hteam]
    rw [if_neg (by simp [hs]), if_neg (by simp [hrole])]
  · intro tid t hs hteam ht
    have htdel : t.deletedAt = none := (findRow_some ht).2
    refine ⟨setTeam (setReq db rid { r with
        status := "completed"
        notes := if truthyS cn then
            some ((r.notes.getD "") ++ "\nCompleted: " ++ cn.getD "")
          else r.notes }) tid { t with status := "available" }, ?_, ?_, ?_⟩
    · simp only [completeMission, getRescueRequestById, getTeamById, hr, hu,
        hteam, ht]
      rw [if_neg (by simp [hs]), if_neg (by simp [hrole])]
    · rw [findReq_setTeam, findReq_setReq_self hr]
      simp [hrdel]
    · have ht' : findTeam (setReq db rid { r with
          status := "completed"
          notes := if truthyS cn then
              some ((r.notes.getD "") ++ "\nCompleted: " ++ cn.getD "")
            else r.notes }) tid = some t := by
        rw [findTeam_setReq]; exact ht
      rw [findTeam_setTeam_self ht']
      simp [htdel]
  · intro out hok
    by_cases hs : r.status = "on_mission"
    · refine ⟨hs, ?_⟩
      intro hteam
      have herr : completeMission db rid aid cn =
          .error ⟨.state, "No team assigned to this request"⟩ := by
        simp only [completeMission, getRescueRequestById, hr, hu, hteam]
        rw [if_neg (by simp [hs]), if_neg (by simp [hrole])]
      rw [herr] at hok
      exact absurd hok (by simp)
    · have herr : completeMission db rid aid cn =
          .error ⟨.state, "Cannot complete request with status " ++ r.status
            ++ ". Only on_mission requests can be completed."⟩ := by
        simp only [completeMission, getRescueRequestById, hr]
        rw [if_pos hs]
      rw [herr] at hok
      exact absurd hok (by simp)

/-- Witness for c2_completeMission_spec on dbB: the admin completes the
mission, the request ends completed with the completion text appended to the
prior notes, and the team returns to available in the same state. -/
theorem c2_completeMission_spec_witness :
    findReq dbB 1 = some { req0 with
      status := "on_mission"
      assigned_team_id := some 2
      notes := some "x" } ∧
    (∃ db2, completeMission dbB 1 3 (some "rescued") =
      .ok (db2,
        { req0 with
          status := "completed"
          assigned_team_id := some 2
          notes := some "x\nCompleted: rescued" },
        { team0 with status := "available" }) ∧
      findReq db2 1 = some { req0 with
        status := "completed"
        assigned_team_id := some 2
        notes := some "x\nCompleted: rescued" } ∧
      findTeam db2 2 = some { team0 with status := "available" }) := by
  refine ⟨rfl, ?_⟩
  have h := (c2_completeMission_spec dbB 1 3 (some "rescued")
    { req0 with status := "on_mission", assigned_team_id := some 2, notes := some "x" }
    { role := "admin" } rfl rfl (by decide)).2.2.1 2
    { team0 with status := "on_mission" } rfl rfl rfl
  exact h

/-- C3 counterexample: updateRescueRequest patches the status verbatim with
no transition check, so it moves the terminal completed request of dbC to
the dead enum value "verified", a transition outside the table. -/
theorem c3_update_escapes_table :
    (findReq dbC 1).map (fun r => r.status) = some "completed" ∧
    statusStep "completed" "verified" = false ∧
    (updateRescueRequest dbC 1 updVerified (some 9) 70).toOption.map
      (fun p => p.2.status) = some "verified" :=
  ⟨rfl, rfl, rfl⟩

/-- C3 (amended): the guarded lifecycle operations respect the transition
table — createRescueRequest only produces status new, and a successful
approve, reject, assignTeam or completeMission steps the target request
along the table (from new, new, pending_verification, on_mission
respectively) while leaving every other request untouched; the generic
updateRescueRequest carries no such guarantee. -/
theorem c3_guarded_ops_respect_table (db : DB) (id aid now : Nat) :
    (∀ d uid r, createRescueRequest d uid = .ok r → r.status = "new") ∧
    (∀ notes db2 r2, approveRescueRequest db id aid notes now = .ok (db2, r2) →
      ∃ r, findReq db id = some r ∧ r.status = "new" ∧
        r2.status = "pending_verification" ∧ statusStep r.status r2.status = true ∧
        ∀ k, k ≠ id → findReq db2 k = findReq db k) ∧
    (∀ reason db2 r2, rejectRescueRequest db id aid reason now = .ok (db2, r2) →
      ∃ r, findReq db id = some r ∧ r.status = "new" ∧
        r2.status = "rejected" ∧ statusStep r.status r2.status = true ∧
        ∀ k, k ≠ id → findReq db2 k = findReq db k) ∧
    (∀ tid db2 r2 t2, assignTeamToRequest db id tid aid now = .ok (db2, r2, t2) →
      ∃ r, findReq db id = some r ∧ r.status = "pending_verification" ∧
        r2.status = "on_mission" ∧ statusStep r.status r2.status = true ∧
        ∀ k, k ≠ id → findReq db2 k = findReq db k) ∧
    (∀ cn db2 r2 t2, completeMission db id aid cn = .ok (db2, r2, t2) →
      ∃ r, findReq db id = some r ∧ r.status = "on_mission" ∧
        r2.status = "completed" ∧ statusStep r.status r2.status = true ∧
        ∀ k, k ≠ id → findReq db2 k = findReq db k) := by
  refine ⟨?_, ?_, ?_, ?_, ?_⟩
  · intro d uid r hok
    unfold createRescueRequest at hok
    split at hok
    · exact absurd hok (by simp)
    · split at hok
      · exact absurd hok (by simp)
      · split at hok
        · exact absurd hok (by simp)
        · simp only [Except.ok.injEq] at hok
          subst hok
          rfl
  · intro notes db2 r2 hok
    cases hreq : findReq db id with
    | none =>
      simp only [approveRescueRequest, getRescueRequestById, hreq] at hok
      exact absurd hok (by simp)
    | some r =>
      simp only [approveRescueRequest, getRescueRequestById, hreq] at hok
      by_cases hs : r.status = "new"
      · rw [if_neg (by simp [hs])] at hok
        cases hu : findUser db aid with
        | none =>
          simp only [hu] at hok
          exact absurd hok (by simp)
        | some a =>
          simp only [hu] at hok
          by_cases hrole : a.role ∈ (["coordinator", "admin"] : List String)
          · rw [if_neg (by simp [hrole])] at hok
            simp only [Except.ok.injEq, Prod.mk.injEq] at hok
            obtain ⟨hdb2, hr2⟩ := hok
            subst hdb2
            subst hr2
            exact ⟨r, rfl, hs, rfl, by rw [hs]; rfl,
              fun k hk => findReq_setReq_ne hk _⟩
          · rw [if_pos hrole] at hok
            exact absurd hok (by simp)
      · rw [if_pos hs] at hok
        exact absurd hok (by simp)
  · intro reason db2 r2 hok
    by_cases hblank : (!truthyS reason || (jsTrim (reason.getD "") == "")) = true
    · rw [rejectRescueRequest, if_pos hblank] at hok
      exact absurd hok (by simp)
    · rw [rejectRescueRequest, if_neg hblank] at hok
      cases hreq : findReq db id with
      | none =>
        simp only [getRescueRequestById, hreq] at hok
        exact absurd hok (by simp)
      | some r =>
        simp only [getRescueRequestById, hreq] at hok
        by_cases hs : r.status = "new"
        · rw [if_neg (by simp [hs])] at hok
          cases hu : findUser db aid with
          | none =>
            simp only [hu] at hok
            exact absurd hok (by simp)
          | some a =>
            simp only [hu] at hok
            by_cases hrole : a.role ∈ (["coordinator", "admin"] : List String)
            · rw [if_neg (by simp [hrole])] at hok
              simp only [Except.ok.injEq, Prod.mk.injEq] at hok
              obtain ⟨hdb2, hr2⟩ := hok
              subst hdb2
              subst hr2
              exact ⟨r, rfl, hs, rfl, by rw [hs]; rfl,
                fun k hk => findReq_setReq_ne hk _⟩
            · rw [if_pos hrole] at hok
              exact absurd hok (by simp)
        · rw [if_pos hs] at hok
          exact absurd hok (by simp)
  · intro tid db2 r2 t2 hok
    cases hreq : findReq db id with
    | none =>
      simp only [assignTeamToRequest, getRescueRequestById, hreq] at hok
      exact absurd hok (by simp)
    | some r =>
      simp only [assignTeamToRequest, getRescueRequestById, hreq] at hok
      by_cases hs : r.status = "pending_verification"
      · rw [if_neg (by simp [hs])] at hok
        cases hu : findUser db aid with
        | none =>
          simp only [hu] at hok
          exact absurd hok (by simp)
        | some a =>
          simp only [hu] at hok
          by_cases hrole : a.role ∈ (["coordinator", "admin"] : List String)
          · rw [if_neg (by simp [hrole])] at hok
            cases hteam : findTeam db tid with
            | none =>
              simp only [getTeamById, hteam] at hok
              exact absurd hok (by simp)
            | some t =>
              simp only [getTeamById, hteam] at hok
              by_cases htav : t.status = "available"
              · rw [if_neg (by simp [htav])] at hok
                simp only [Except.ok.injEq, Prod.mk.injEq] at hok
                obtain ⟨hdb2, hr2, ht2⟩ := hok
                subst hdb2
                subst hr2
                subst ht2
                refine ⟨r, rfl, hs, rfl, by rw [hs]; rfl, ?_⟩
                intro k hk
                rw [findReq_setTeam, findReq_setReq_ne hk]
              · rw [if_pos htav] at hok
                exact absurd hok (by simp)
          · rw [if_pos hrole] at hok
            exact absurd hok (by simp)
      · rw [if_pos hs] at hok
        exact absurd hok (by simp)
  · intro cn db2 r2 t2 hok
    cases hreq : findReq db id with
    | none =>
      simp only [completeMission, getRescueRequestById, hreq] at hok
      exact absurd hok (by simp)
    | some r =>
      simp only [completeMission, getRescueRequestById, hreq] at hok
      by_cases hs : r.status = "on_mission"
      · rw [if_neg (by simp [hs])] at hok
        cases hu : findUser db aid with
        | none =>
          simp only [hu] at hok
          exact absurd hok (by simp)
        | some a =>
          simp only [hu] at hok
          by_cases hrole : a.role ∈ (["coordinator", "admin"] : List String)
          · rw [if_neg (by simp [hrole])] at hok
            cases hat : r.assigned_team_id with
            | none =>
              simp only [hat] at hok
              exact absurd hok (by simp)
            | some tid2 =>
              simp only [hat] at hok
              cases hteam : findTeam db tid2 with
              | none =>
                simp only [getTeamById, hteam] at hok
                exact absurd hok (by simp)
              | some t =>
                simp only [getTeamById, hteam] at hok
                simp only [Except.ok.injEq, Prod.mk.injEq] at hok
                obtain ⟨hdb2, hr2, ht2⟩ := hok
                subst hdb2
                subst hr2
                subst ht2
                refine ⟨r, rfl, hs, rfl, by rw [hs]; rfl, ?_⟩
                intro k hk
                rw [findReq_setTeam, findReq_setReq_ne hk]
          · rw [if_pos hrole] at hok
            exact absurd hok (by simp)
      · rw [if_pos hs] at hok
        exact absurd hok (by simp)

/-- Witness for c3_guarded_ops_respect_table: approving the fresh request of
dbD steps it new to pending_verification along the table. -/
theorem c3_guarded_ops_respect_table_witness :
    approveRescueRequest dbD 1 3 none 7 =
      .ok (setReq dbD 1
          { req0 with
            status := "pending_verification"
            verified_by := some 3
            verified_at := some 7
            notes := some "Request approved by coordinator" },
        { req0 with
          status := "pending_verification"
          verified_by := some 3
          verified_at := some 7
          notes := some "Request approved by coordinator" }) ∧
    (∃ r, findReq dbD 1 = some r ∧ r.status = "new" ∧
      ({ req0 with
        status := "pending_verification"
        verified_by := some 3
        verified_at := some 7
        notes := some "Request approved by coordinator" } : RescueRequest).status =
          "pending_verification") := by
  constructor
  · rfl
  · have h := (c3_guarded_ops_respect_table dbD 1 3 7).2.1 none _ _ rfl
    obtain ⟨r, h1, h2, h3, -, -⟩ := h
    exact ⟨r, h1, h2, rfl⟩

/-- C4: the code lets deleteRescueRequest soft-delete the single on_mission
request of dbB without touching its team, leaving team 2 on_mission while no
non-deleted on_mission request references it — the desynchronisation the
design document rules out. -/
theorem c4_delete_strands_team :
    teamHasActiveRequest dbB 2 = true ∧
    (findTeam dbB 2).map (fun t => t.status) = some "on_mission" ∧
    (deleteRescueRequest dbB 1 60).toOption.map
      (fun db2 => (teamHasActiveRequest db2 2,
        (findTeam db2 2).map (fun t => t.status))) = some (false, some "on_mission") :=
  ⟨rfl, rfl, rfl⟩

end WDP
